import Mathlib

/-!
Verification development for the TCG Radar signal engine.

The Python sources are shallowly embedded: `Decimal` values become exact
rationals (`ℚ`) with the half-up quantization the code applies made
explicit, fallible functions (those that may raise `ValueError`) return
`Except String`, timestamps and dates become integer second/day counts,
and the database rows the pipeline touches become explicit record
structures.  Every definition mirrors the corresponding function in
`src/` and keeps the source name where Lean allows it.
-/

namespace TCGRadar

/-! ## Decimal quantization

Embedding of `Decimal.quantize(Decimal("0.01"), rounding=ROUND_HALF_UP)`.
ROUND_HALF_UP rounds ties away from zero, so the negative case mirrors the
positive one through negation. -/

/-- Round to 2 decimal places, half away from zero (ROUND_HALF_UP at 2 dp). -/
def halfUp2 (x : ℚ) : ℚ :=
  if 0 ≤ x then ((⌊100 * x + 1 / 2⌋ : ℤ) : ℚ) / 100
  else -(((⌊100 * (-x) + 1 / 2⌋ : ℤ) : ℚ) / 100)

theorem halfUp2_of_nonneg {x : ℚ} (h : 0 ≤ x) :
    halfUp2 x = ((⌊100 * x + 1 / 2⌋ : ℤ) : ℚ) / 100 := by
  simp [halfUp2, h]

theorem halfUp2_nonneg {x : ℚ} (h : 0 ≤ x) : 0 ≤ halfUp2 x := by
  rw [halfUp2_of_nonneg h]
  have h0 : (0 : ℤ) ≤ ⌊100 * x + 1 / 2⌋ := by
    apply Int.floor_nonneg.2
    nlinarith
  positivity

theorem abs_halfUp2_sub_le {x : ℚ} (h : 0 ≤ x) : |halfUp2 x - x| ≤ 1 / 200 := by
  rw [halfUp2_of_nonneg h, abs_le]
  have h1 : ((⌊100 * x + 1 / 2⌋ : ℤ) : ℚ) ≤ 100 * x + 1 / 2 := Int.floor_le _
  have h2 : 100 * x + 1 / 2 - 1 < ((⌊100 * x + 1 / 2⌋ : ℤ) : ℚ) :=
    Int.sub_one_lt_floor _
  constructor <;> nlinarith

/-- Decidable equality for `Except`, so concrete runs of the fallible
functions can be checked by `decide`. -/
instance {e a : Type} [DecidableEq e] [DecidableEq a] : DecidableEq (Except e a)
  | .error e1, .error e2 =>
      if h : e1 = e2 then isTrue (by rw [h]) else isFalse (by simp [h])
  | .error _, .ok _ => isFalse (by simp)
  | .ok _, .error _ => isFalse (by simp)
  | .ok a1, .ok a2 =>
      if h : a1 = a2 then isTrue (by rw [h]) else isFalse (by simp [h])

/-! ## Configuration constants (`src/config.py`, class `Settings`) -/

/-- Settings.TCGPLAYER_FEE_RATE (= Decimal("0.1075")). -/
def TCGPLAYER_FEE_RATE : ℚ := 1075 / 10000

/-- Settings.TCGPLAYER_FEE_CAP (= Decimal("75.00")). -/
def TCGPLAYER_FEE_CAP : ℚ := 75

/-- Settings.TCGPLAYER_FIXED_FEE (= Decimal("0.30")). -/
def TCGPLAYER_FIXED_FEE : ℚ := 30 / 100

/-- Settings.EBAY_FEE_RATE (= Decimal("0.1325")). -/
def EBAY_FEE_RATE : ℚ := 1325 / 10000

/-- Settings.CARDMARKET_PRO_FEE_RATE (= Decimal("0.05")). -/
def CARDMARKET_PRO_FEE_RATE : ℚ := 5 / 100

/-- Settings.US_DE_MINIMIS_USD (= Decimal("800.00")). -/
def US_DE_MINIMIS_USD : ℚ := 800

/-- Settings.US_CUSTOMS_STANDARD_RATE (= Decimal("0.025")). -/
def US_CUSTOMS_STANDARD_RATE : ℚ := 25 / 1000

/-- Settings.EU_VAT_RATE (= Decimal("0.21")). -/
def EU_VAT_RATE : ℚ := 21 / 100

/-- Settings.UK_VAT_RATE (= Decimal("0.20")). -/
def UK_VAT_RATE : ℚ := 20 / 100

/-- Settings.UK_LOW_VALUE_THRESHOLD_USD (= Decimal("135.00")). -/
def UK_LOW_VALUE_THRESHOLD_USD : ℚ := 135

/-- Settings.SHIPPING_COST_USD (= Decimal("15.00")). -/
def SHIPPING_COST_USD : ℚ := 15

/-- Settings.EU_CUSTOMS_FLAT_DUTY_EUR (= Decimal("3.00")). -/
def EU_CUSTOMS_FLAT_DUTY_EUR : ℚ := 3

/-- Settings.DEFAULT_FOREX_BUFFER (= Decimal("0.02")). -/
def DEFAULT_FOREX_BUFFER : ℚ := 2 / 100

/-- Settings.EUR_USD_RATE (= Decimal("1.08"), the static fallback rate). -/
def EUR_USD_RATE : ℚ := 108 / 100

/-- Settings.MIN_SELLER_RATING (= Decimal("97.0")). -/
def MIN_SELLER_RATING : ℚ := 97

/-- Settings.MIN_SELLER_SALES (= 100). -/
def MIN_SELLER_SALES : ℤ := 100

/-- Settings.DEFAULT_MIN_PROFIT_THRESHOLD (= Decimal("5.00")). -/
def DEFAULT_MIN_PROFIT_THRESHOLD : ℚ := 5

/-- Settings.VELOCITY_TIER_1_FLOOR (= Decimal("1.5")). -/
def VELOCITY_TIER_1_FLOOR : ℚ := 15 / 10

/-- Settings.VELOCITY_TIER_2_FLOOR (= Decimal("0.5")). -/
def VELOCITY_TIER_2_FLOOR : ℚ := 5 / 10

/-- Settings.FALLING_KNIFE_THRESHOLD (= Decimal("-0.10")). -/
def FALLING_KNIFE_THRESHOLD : ℚ := -(10 / 100)

/-- Settings.HEADACHE_TIER_1_FLOOR (= Decimal("15.00")). -/
def HEADACHE_TIER_1_FLOOR : ℚ := 15

/-- Settings.HEADACHE_TIER_2_FLOOR (= Decimal("5.00")). -/
def HEADACHE_TIER_2_FLOOR : ℚ := 5

/-- Settings.MATURITY_DECAY_30D (= Decimal("1.0")). -/
def MATURITY_DECAY_30D : ℚ := 1

/-- Settings.MATURITY_DECAY_60D (= Decimal("0.9")). -/
def MATURITY_DECAY_60D : ℚ := 9 / 10

/-- Settings.MATURITY_DECAY_90D (= Decimal("0.8")). -/
def MATURITY_DECAY_90D : ℚ := 8 / 10

/-- Settings.MATURITY_DECAY_OLD (= Decimal("0.7")). -/
def MATURITY_DECAY_OLD : ℚ := 7 / 10

/-- Settings.SDS_BUNDLE_ALERT (= 5). -/
def SDS_BUNDLE_ALERT : ℤ := 5

/-- Settings.SDS_PARTIAL_MIN (= 2). -/
def SDS_PARTIAL_MIN : ℤ := 2

/-- Settings.SDS_SINGLE (= 1). -/
def SDS_SINGLE : ℤ := 1

/-- Settings.BUNDLE_SINGLE_CARD_THRESHOLD (= Decimal("25.00")). -/
def BUNDLE_SINGLE_CARD_THRESHOLD : ℚ := 25

/-- Settings.CASCADE_COOLDOWN_SECONDS (= 10). -/
def CASCADE_COOLDOWN_SECONDS : ℤ := 10

/-- Settings.CASCADE_MAX_LIMIT (= 5). -/
def CASCADE_MAX_LIMIT : ℤ := 5

/-- Settings.ENABLE_BUNDLE_LOGIC (= True). -/
def ENABLE_BUNDLE_LOGIC : Bool := true

/-- Settings.CUSTOMS_REGIME default value string
(CustomsRegime.PRE_JULY_2026.value). -/
def CUSTOMS_REGIME_VALUE : String := "pre_july_2026"

/-! ## Python string normalization helpers

The kernel-friendly equivalents of `str.strip()`, `str.upper()` and
`str.lower()` used by the normalization code. -/

/-- Python `str.strip()`: drop whitespace from both ends. -/
def pyStrip (s : String) : String :=
  String.mk (((s.data.dropWhile Char.isWhitespace).reverse.dropWhile
    Char.isWhitespace).reverse)

/-- Python `str.upper()`: upper-case every character. -/
def pyUpper (s : String) : String := String.mk (s.data.map Char.toUpper)

/-- Python `str.lower()`: lower-case every character. -/
def pyLower (s : String) : String := String.mk (s.data.map Char.toLower)

/-! ## Forex (`src/utils/forex.py`) -/

/-- Embedding of `convert_eur_to_usd`: validates the amount, multiplies by
the buffered rate `rate * (1 + buffer)` and quantizes half-up to 2 dp.
The Python function performs no check on `rate`. -/
def convert_eur_to_usd (amount_eur rate buffer : ℚ) : Except String ℚ :=
  if amount_eur < 0 then
    .error "amount_eur must be non-negative"
  else
    let buffered_rate := rate * (1 + buffer)
    .ok (halfUp2 (amount_eur * buffered_rate))

/-- Embedding of `convert_usd_to_eur`: validates the amount and the rate,
divides by the buffered rate `rate * (1 + buffer)` and quantizes half-up
to 2 dp. -/
def convert_usd_to_eur (amount_usd rate buffer : ℚ) : Except String ℚ :=
  if amount_usd < 0 then
    .error "amount_usd must be non-negative"
  else if rate ≤ 0 then
    .error "rate must be positive"
  else
    let buffered_rate := rate * (1 + buffer)
    .ok (halfUp2 (amount_usd / buffered_rate))

example : convert_eur_to_usd 100 (108/100) (2/100) = .ok (11016/100) := by
  norm_num [convert_eur_to_usd, halfUp2]

example : convert_usd_to_eur 100 1 (2/100) = .ok (9804/100) := by
  norm_num [convert_usd_to_eur, halfUp2]

/-! ## Condition mapping (`src/utils/condition_map.py`) -/

/-- Cardmarket condition grades (enum `CardmarketGrade`). -/
inductive CardmarketGrade
  | MINT
  | NEAR_MINT
  | EXCELLENT
  | GOOD
  | LIGHT_PLAYED
  | PLAYED
  | POOR
  deriving DecidableEq, Repr

/-- Raw platform code of a grade (the enum value). -/
def CardmarketGrade.value : CardmarketGrade → String
  | .MINT => "MT"
  | .NEAR_MINT => "NM"
  | .EXCELLENT => "EXC"
  | .GOOD => "GD"
  | .LIGHT_PLAYED => "LP"
  | .PLAYED => "PL"
  | .POOR => "PO"

/-- Inverse of `CardmarketGrade.value`: the `CardmarketGrade(code)` enum
constructor, `none` when the code is not one of the seven raw codes. -/
def CardmarketGrade.fromCode : String → Option CardmarketGrade
  | "MT" => some .MINT
  | "NM" => some .NEAR_MINT
  | "EXC" => some .EXCELLENT
  | "GD" => some .GOOD
  | "LP" => some .LIGHT_PLAYED
  | "PL" => some .PLAYED
  | "PO" => some .POOR
  | _ => none

/-- TCGPlayer condition grades (enum `TCGPlayerGrade`). -/
inductive TCGPlayerGrade
  | NEAR_MINT
  | LIGHTLY_PLAYED
  | MODERATELY_PLAYED
  | HEAVILY_PLAYED
  | DAMAGED
  deriving DecidableEq, Repr

/-- Result of mapping a Cardmarket grade (NamedTuple `ConditionMapping`). -/
structure ConditionMapping where
  tcgplayer_grade : TCGPlayerGrade
  price_multiplier : ℚ
  deriving DecidableEq, Repr

/-- Embedding of `map_condition`: the pessimistic Cardmarket → TCGPlayer
table; POOR raises (modelled as an error). -/
def map_condition : CardmarketGrade → Except String ConditionMapping
  | .MINT => .ok ⟨.NEAR_MINT, 1⟩
  | .NEAR_MINT => .ok ⟨.NEAR_MINT, 1⟩
  | .EXCELLENT => .ok ⟨.LIGHTLY_PLAYED, 85 / 100⟩
  | .GOOD => .ok ⟨.MODERATELY_PLAYED, 75 / 100⟩
  | .LIGHT_PLAYED => .ok ⟨.MODERATELY_PLAYED, 75 / 100⟩
  | .PLAYED => .ok ⟨.HEAVILY_PLAYED, 60 / 100⟩
  | .POOR => .error "Cannot map condition PO (Poor/Damaged)"

/-! ## Customs regimes (`src/config.py` + `src/engine/profit.py`) -/

/-- Enum `CustomsRegime`. -/
inductive CustomsRegime
  | DE_MINIMIS
  | IOSS_EU
  | UK_LOW_VALUE
  | PRE_JULY_2026
  | POST_JULY_2026
  deriving DecidableEq, Repr

/-- String value of a `CustomsRegime` member. -/
def CustomsRegime.value : CustomsRegime → String
  | .DE_MINIMIS => "de_minimis"
  | .IOSS_EU => "ioss_eu"
  | .UK_LOW_VALUE => "uk_low_value"
  | .PRE_JULY_2026 => "pre_july_2026"
  | .POST_JULY_2026 => "post_july_2026"

/-- Embedding of `profit.py::_normalize_customs_regime`: lower-cased value
lookup first, then upper-cased member-name lookup, else an error. -/
def _normalize_customs_regime (customs_regime : String) : Except String CustomsRegime :=
  let normalized := pyLower (pyStrip customs_regime)
  if normalized = "de_minimis" then .ok .DE_MINIMIS
  else if normalized = "ioss_eu" then .ok .IOSS_EU
  else if normalized = "uk_low_value" then .ok .UK_LOW_VALUE
  else if normalized = "pre_july_2026" then .ok .PRE_JULY_2026
  else if normalized = "post_july_2026" then .ok .POST_JULY_2026
  else
    let member := pyUpper (pyStrip customs_regime)
    if member = "DE_MINIMIS" then .ok .DE_MINIMIS
    else if member = "IOSS_EU" then .ok .IOSS_EU
    else if member = "UK_LOW_VALUE" then .ok .UK_LOW_VALUE
    else if member = "PRE_JULY_2026" then .ok .PRE_JULY_2026
    else if member = "POST_JULY_2026" then .ok .POST_JULY_2026
    else .error "Unsupported customs_regime"

/-! ## Net profit (`src/engine/profit.py`) -/

/-- Alias table `profit.py::_CONDITION_ALIASES` (synonym → raw code). -/
def _CONDITION_ALIASES : List (String × String) :=
  [("MINT", "MT"), ("MT", "MT"),
   ("NEAR MINT", "NM"), ("NEAR_MINT", "NM"), ("NM", "NM"),
   ("EXCELLENT", "EXC"), ("EXC", "EXC"),
   ("GOOD", "GD"), ("GD", "GD"),
   ("LIGHT PLAYED", "LP"), ("LIGHT_PLAYED", "LP"),
   ("LIGHTLY PLAYED", "LP"), ("LIGHTLY_PLAYED", "LP"), ("LP", "LP"),
   ("PLAYED", "PL"), ("PL", "PL"),
   ("POOR", "PO"), ("DAMAGED", "PO"), ("PO", "PO")]

/-- Embedding of `profit.py::_normalize_condition`: strip/upper-case the
input, translate through the alias table, then the enum constructor. -/
def _normalize_condition (condition : String) : Except String CardmarketGrade :=
  let normalized := pyUpper (pyStrip condition)
  let mapped := (_CONDITION_ALIASES.lookup normalized).getD normalized
  match CardmarketGrade.fromCode mapped with
  | some g => .ok g
  | none => .error "invalid CardmarketGrade"

/-- Embedding of `profit.py::_calculate_customs`: customs cost in USD for
a regime given the landed cost `cogs_usd`. -/
def _calculate_customs (cogs_usd forex_rate : ℚ) (regime : CustomsRegime) :
    Except String ℚ :=
  match regime with
  | .DE_MINIMIS | .PRE_JULY_2026 =>
      if cogs_usd < US_DE_MINIMIS_USD then .ok 0
      else .ok (halfUp2 (cogs_usd * US_CUSTOMS_STANDARD_RATE))
  | .IOSS_EU | .POST_JULY_2026 =>
      let vat_cost := cogs_usd * EU_VAT_RATE
      match convert_eur_to_usd EU_CUSTOMS_FLAT_DUTY_EUR forex_rate
          DEFAULT_FOREX_BUFFER with
      | .error e => .error e
      | .ok flat_duty_usd => .ok (halfUp2 (vat_cost + flat_duty_usd))
  | .UK_LOW_VALUE =>
      if cogs_usd > UK_LOW_VALUE_THRESHOLD_USD then
        .ok (halfUp2 (cogs_usd * UK_VAT_RATE))
      else .ok 0

/-- The 2-dp fee/cost breakdown dict returned by `calculate_net_profit`. -/
structure ProfitBreakdown where
  net_profit : ℚ
  revenue : ℚ
  cogs_usd : ℚ
  tcg_fees : ℚ
  customs : ℚ
  shipping : ℚ
  forwarder_costs : ℚ
  margin_pct : ℚ
  deriving DecidableEq, Repr

/-- Embedding of `profit.py::calculate_net_profit`.  Note the fee line of
the source: `tcg_fees = _quantize(adjusted_tcg_price * settings.TCGPLAYER_FEE_RATE)`
applies the rate only, with no cap and no fixed component. -/
def calculate_net_profit (cm_price_eur tcg_price_usd forex_rate : ℚ)
    (condition customs_regime : String) (use_forwarder : Bool)
    (forwarder_receiving_fee forwarder_consolidation_fee insurance_rate : ℚ) :
    Except String ProfitBreakdown :=
  if cm_price_eur < 0 then .error "cm_price_eur must be non-negative" else
  if tcg_price_usd < 0 then .error "tcg_price_usd must be non-negative" else
  if forex_rate ≤ 0 then .error "forex_rate must be positive" else
  if forwarder_receiving_fee < 0 then .error "forwarder_receiving_fee must be non-negative" else
  if forwarder_consolidation_fee < 0 then .error "forwarder_consolidation_fee must be non-negative" else
  if insurance_rate < 0 then .error "insurance_rate must be non-negative" else
  match _normalize_condition condition with
  | .error e => .error e
  | .ok cardmarket_grade =>
    match map_condition cardmarket_grade with
    | .error e => .error e
    | .ok condition_mapping =>
      match _normalize_customs_regime customs_regime with
      | .error e => .error e
      | .ok regime =>
        match convert_eur_to_usd cm_price_eur forex_rate DEFAULT_FOREX_BUFFER with
        | .error e => .error e
        | .ok cogs_usd =>
          let adjusted_tcg_price :=
            halfUp2 (tcg_price_usd * condition_mapping.price_multiplier)
          let tcg_fees := halfUp2 (adjusted_tcg_price * TCGPLAYER_FEE_RATE)
          match _calculate_customs cogs_usd forex_rate regime with
          | .error e => .error e
          | .ok customs =>
            let shipping := halfUp2 SHIPPING_COST_USD
            let forwarder_step : Except String ℚ :=
              if use_forwarder then
                let insurance_eur := cm_price_eur * insurance_rate
                match convert_eur_to_usd insurance_eur forex_rate
                    DEFAULT_FOREX_BUFFER with
                | .error e => .error e
                | .ok insurance_usd =>
                    .ok (halfUp2 (forwarder_receiving_fee +
                      forwarder_consolidation_fee + insurance_usd))
              else .ok 0
            match forwarder_step with
            | .error e => .error e
            | .ok forwarder_costs =>
              let revenue := halfUp2 (adjusted_tcg_price - tcg_fees)
              let total_costs := cogs_usd + customs + shipping + forwarder_costs
              let net_profit := halfUp2 (revenue - total_costs)
              let margin_pct :=
                if revenue ≠ 0 then halfUp2 (net_profit / revenue * 100) else 0
              .ok {
                net_profit := net_profit
                revenue := revenue
                cogs_usd := halfUp2 cogs_usd
                tcg_fees := tcg_fees
                customs := halfUp2 customs
                shipping := shipping
                forwarder_costs := halfUp2 forwarder_costs
                margin_pct := margin_pct
              }

/-! ## Platform fees (`src/engine/fees.py`) -/

/-- Enum `Platform`. -/
inductive Platform
  | tcgplayer
  | ebay
  | cardmarket
  deriving DecidableEq, Repr

/-- Embedding of `fees.py::calculate_platform_fees`: the documented tiered
schedules, TCGPlayer with the $75 cap plus the $0.30 fixed component. -/
def calculate_platform_fees (price : ℚ) (platform : Platform) : Except String ℚ :=
  if price < 0 then .error "price must be non-negative"
  else
    match platform with
    | .tcgplayer =>
        let variable_part := min (price * TCGPLAYER_FEE_RATE) TCGPLAYER_FEE_CAP
        .ok (halfUp2 (variable_part + TCGPLAYER_FIXED_FEE))
    | .ebay => .ok (halfUp2 (price * EBAY_FEE_RATE))
    | .cardmarket => .ok (halfUp2 (price * CARDMARKET_PRO_FEE_RATE))

/-! ## Signal cascade (`src/signals/cascade.py`)

Timestamps are modelled as whole seconds (`ℤ`). -/

/-- Why a cascade check came out the way it did (the reason strings of
the source, kept as tags). -/
inductive CascadeReason
  | signal_acted_on
  | cascade_limit_reached
  | cooldown_pending
  | cascade_ready
  deriving DecidableEq, Repr

/-- Embedding of `compute_cascade_available_at`:
`expires_at + cooldown` with the configured default cooldown. -/
def compute_cascade_available_at (expires_at : ℤ) (cooldown_seconds : Option ℤ) : ℤ :=
  let cooldown := cooldown_seconds.getD CASCADE_COOLDOWN_SECONDS
  expires_at + cooldown

/-- Embedding of `should_cascade`: acted-on check, then the max-cascade
check, then the cooldown check. -/
def should_cascade (expires_at : ℤ) (acted_on : Bool) (cascade_count : ℤ)
    (reference_time : ℤ) (cooldown_seconds : Option ℤ) (max_cascades : Option ℤ) :
    Bool × CascadeReason :=
  let max_limit := max_cascades.getD CASCADE_MAX_LIMIT
  if acted_on then (false, .signal_acted_on)
  else if cascade_count ≥ max_limit then (false, .cascade_limit_reached)
  else
    let available_at := compute_cascade_available_at expires_at cooldown_seconds
    if reference_time < available_at then (false, .cooldown_pending)
    else (true, .cascade_ready)

/-- Embedding of `increment_cascade_count`. -/
def increment_cascade_count (current_count : ℤ) (max_cascades : Option ℤ) : ℤ × Bool :=
  let max_limit := max_cascades.getD CASCADE_MAX_LIMIT
  let new_count := current_count + 1
  (new_count, new_count ≥ max_limit)

/-! ## Rotation risk (`src/engine/rotation.py`)

Dates are modelled as proleptic-Gregorian day ordinals; `dateOrdinal`
turns a calendar date into its ordinal, so `(d1 - d2 : ℤ)` is the same
day difference Python computes with `(date1 - date2).days`. -/

/-- Leap-year test of the Gregorian calendar. -/
def isLeapYear (y : ℕ) : Bool :=
  (y % 4 == 0 && y % 100 != 0) || (y % 400 == 0)

/-- Days in the months before month `m` (1-based) of year `y`. -/
def daysBeforeMonth (y m : ℕ) : ℕ :=
  let base :=
    match m with
    | 1 => 0
    | 2 => 31
    | 3 => 59
    | 4 => 90
    | 5 => 120
    | 6 => 151
    | 7 => 181
    | 8 => 212
    | 9 => 243
    | 10 => 273
    | 11 => 304
    | _ => 334
  if 2 < m && isLeapYear y then base + 1 else base

/-- Day ordinal of a Gregorian calendar date (day 1 = 0001-01-01). -/
def dateOrdinal (y m d : ℕ) : ℤ :=
  (365 * (y - 1) + (y - 1) / 4 + (y - 1) / 400 + daysBeforeMonth y m + d : ℤ)
    - ((y - 1) / 100 : ℕ)

/-- Risk levels of `check_rotation_risk`. -/
inductive RiskLevel
  | SAFE
  | WATCH
  | DANGER
  | ROTATED
  | UNKNOWN
  deriving DecidableEq, Repr

/-- Entry of `Settings.ROTATION_CALENDAR` (the rotation date is stored
parsed, as a day ordinal). -/
structure RotationInfo where
  rotation_date : Option ℤ
  status : String
  deriving DecidableEq, Repr

/-- Embedding of `Settings.ROTATION_CALENDAR`: only marks "G" (rotating
2026-04-10) and "H" (no announced rotation) are present. -/
def ROTATION_CALENDAR (mark : String) : Option RotationInfo :=
  if mark = "G" then some ⟨some (dateOrdinal 2026 4 10), "DEATH_SPIRAL"⟩
  else if mark = "H" then some ⟨none, "STANDARD_LEGAL"⟩
  else none

/-- Result dict of `check_rotation_risk`. -/
structure RotationRisk where
  at_risk : Bool
  risk_level : RiskLevel
  months_until_rotation : Option ℤ
  rotation_date : Option ℤ
  deriving DecidableEq, Repr

/-- Embedding of `check_rotation_risk`: banned check, missing-mark check,
calendar lookup (absence means ROTATED), then classification on the day
difference to the rotation date. -/
def check_rotation_risk (regulation_mark : Option String)
    (legality_standard : Option String) (reference_date : ℤ) : RotationRisk :=
  if legality_standard = some "Banned" then
    ⟨true, .ROTATED, none, none⟩
  else
    match regulation_mark with
    | none => ⟨false, .UNKNOWN, none, none⟩
    | some mark =>
      match ROTATION_CALENDAR mark with
      | none => ⟨true, .ROTATED, none, none⟩
      | some rotation_info =>
        match rotation_info.rotation_date with
        | none => ⟨false, .SAFE, none, none⟩
        | some rotation_date =>
          let days_until_rotation := rotation_date - reference_date
          if days_until_rotation < 0 then
            ⟨true, .ROTATED, some 0, some rotation_date⟩
          else
            let months_until := max 0 (days_until_rotation / 30)
            if days_until_rotation > 180 then
              ⟨false, .SAFE, some months_until, some rotation_date⟩
            else if days_until_rotation > 90 then
              ⟨true, .WATCH, some months_until, some rotation_date⟩
            else
              ⟨true, .DANGER, some months_until, some rotation_date⟩

/-! ## Seller quality (`src/engine/seller_quality.py`) -/

/-- Embedding of `check_seller_quality`: both the rating floor and the
lifetime-sales floor must pass. -/
def check_seller_quality (rating : ℚ) (sale_count : ℤ) : Bool :=
  if rating < MIN_SELLER_RATING then false
  else if sale_count < MIN_SELLER_SALES then false
  else true

/-! ## Variant check (`src/engine/variant_check.py`) -/

/-- Embedding of `validate_variant`: strict canonical-id equality; empty
ids mismatch. -/
def validate_variant (tcgplayer_id cardmarket_id : String) : String :=
  if tcgplayer_id = "" ∨ cardmarket_id = "" then "VARIANT_MISMATCH"
  else if tcgplayer_id ≠ cardmarket_id then "VARIANT_MISMATCH"
  else "MATCH"

/-! ## Velocity (`src/engine/velocity.py`) -/

/-- Embedding of `calculate_velocity_score`: validates the input, then
classifies with strict `>` boundaries (tier 1 above the high floor,
tier 2 above the low floor, tier 3 otherwise). -/
def calculate_velocity_score (daily_sales : ℚ)
    (threshold_low threshold_high : Option ℚ) : Except String (ℚ × ℤ) :=
  if daily_sales < 0 then .error "daily_sales must be non-negative"
  else
    let low := threshold_low.getD VELOCITY_TIER_2_FLOOR
    let high := threshold_high.getD VELOCITY_TIER_1_FLOOR
    if low ≥ high then .error "threshold_low must be less than threshold_high"
    else
      let velocity_score := halfUp2 daily_sales
      if daily_sales > high then .ok (velocity_score, 1)
      else if daily_sales > low then .ok (velocity_score, 2)
      else .ok (velocity_score, 3)

/-! ## Trend classification (`src/engine/trend.py`) -/

/-- Enum `TrendClassification` (four-cell velocity × price-trend matrix). -/
inductive TrendClassification
  | momentum
  | liquidation
  | stable
  | declining
  deriving DecidableEq, Repr

/-- Embedding of `classify_trend`: suppress only LIQUIDATION (high
velocity and falling price). -/
def classify_trend (velocity_score price_trend_daily : ℚ)
    (velocity_threshold falling_knife_threshold : Option ℚ) :
    TrendClassification × Bool :=
  let v_thresh := velocity_threshold.getD VELOCITY_TIER_1_FLOOR
  let fk_thresh := falling_knife_threshold.getD FALLING_KNIFE_THRESHOLD
  let high_velocity := velocity_score ≥ v_thresh
  let falling_price := price_trend_daily ≤ fk_thresh
  if high_velocity ∧ falling_price then (.liquidation, true)
  else if high_velocity ∧ ¬falling_price then (.momentum, false)
  else if ¬high_velocity ∧ falling_price then (.declining, false)
  else (.stable, false)

/-! ## Maturity decay (`src/engine/maturity.py`) -/

/-- Embedding of `calculate_maturity_decay` (dates as day ordinals). -/
def calculate_maturity_decay (set_release_date reference_date : ℤ) : ℚ :=
  let set_age_days := reference_date - set_release_date
  if set_age_days < 0 then 1
  else if set_age_days < 30 then MATURITY_DECAY_30D
  else if set_age_days < 60 then MATURITY_DECAY_60D
  else if set_age_days < 90 then MATURITY_DECAY_90D
  else MATURITY_DECAY_OLD

/-! ## Headache score (`src/engine/headache.py`) -/

/-- Embedding of `calculate_headache_score`:
`H = net_profit / num_transactions`, tier by strict floors. -/
def calculate_headache_score (net_profit : ℚ) (num_transactions : ℤ) :
    Except String (ℚ × ℤ) :=
  if num_transactions ≤ 0 then .error "num_transactions must be greater than 0"
  else
    let headache_score := net_profit / (num_transactions : ℚ)
    if headache_score > HEADACHE_TIER_1_FLOOR then .ok (headache_score, 1)
    else if headache_score > HEADACHE_TIER_2_FLOOR then .ok (headache_score, 2)
    else .ok (headache_score, 3)

/-! ## Bundle logic (`src/engine/bundle.py`) -/

/-- Enum `BundleTier`. -/
inductive BundleTier
  | bundleAlert
  | partialBundle
  | singleCard
  deriving DecidableEq, Repr

/-- NamedTuple `BundleResult` (the reason string is kept as a tag only). -/
structure BundleResult where
  sds : ℤ
  tier : BundleTier
  suppress : Bool
  deriving DecidableEq, Repr

/-- Embedding of `calculate_seller_density_score`: tier classification of
the SDS plus the suppression rule
(SDS = 1 and price below $25 and net profit ≤ 0). -/
def calculate_seller_density_score (seller_card_count : ℤ)
    (card_price_usd net_profit : ℚ) : Except String BundleResult :=
  if seller_card_count < 1 then .error "seller_card_count must be at least 1"
  else
    let sds := seller_card_count
    let tier : BundleTier :=
      if sds ≥ SDS_BUNDLE_ALERT then .bundleAlert
      else if sds ≥ SDS_PARTIAL_MIN then .partialBundle
      else .singleCard
    let suppress :=
      sds = SDS_SINGLE ∧ card_price_usd < BUNDLE_SINGLE_CARD_THRESHOLD ∧
        net_profit ≤ 0
    .ok ⟨sds, tier, decide suppress⟩

/-! ## Signal generator scan (`src/signals/generator.py::SignalGenerator.scan_for_signals`)

The per-candidate body of the scan loop.  The database reads that feed one
candidate (its `MarketPrice` row, its `CardMetadata` row, its `poketrace`
velocity row and the trend value that `get_7day_trend` computes from its
history) are gathered in a `Candidate` record, the session-wide inputs
(forex rate, today's date) are parameters, and the stage counters of
`filter_counts` become the list of stages the candidate passed — the code
increments a stage's counter exactly when the candidate survives that
stage.  A candidate that is rejected (`continue`) or raises (caught by the
per-candidate `except`) yields no signal and no further counter
increments. -/

/-- The `CardMetadata` columns the scan reads. -/
structure CardMeta where
  card_id : String
  name : String
  regulation_mark : Option String
  legality_standard : Option String
  set_release_date : Option ℤ
  deriving DecidableEq, Repr

/-- The `poketrace` velocity row of a card (sales_30d, active_listings). -/
structure PokeTraceRow where
  sales_30d : Option ℤ
  active_listings : Option ℤ
  deriving DecidableEq, Repr

/-- One scan candidate: a `MarketPrice` row with both prices present plus
the auxiliary rows the pipeline fetches for it. -/
structure Candidate where
  card_id : String
  price_usd : ℚ
  price_eur : ℚ
  condition : Option String
  seller_rating : Option ℚ
  seller_sales : Option ℤ
  metadata : Option CardMeta
  poketrace : Option PokeTraceRow
  price_trend : ℚ
  deriving DecidableEq, Repr

/-- The stage labels of the scan's `filter_counts` dict. -/
inductive Stage
  | initial
  | variant
  | seller
  | condition
  | profit
  | velocity
  | trend
  | maturity
  | rotation
  | headache
  | bundle
  deriving DecidableEq, Repr

/-- The signal dict assembled for an accepted candidate (the fields the
claims touch). -/
structure SignalData where
  card_id : String
  net_profit : ℚ
  margin_pct : ℚ
  velocity_tier : ℤ
  velocity_score : ℚ
  maturity_decay : ℚ
  headache_tier : ℤ
  headache_score : ℚ
  condition : String
  cm_price_eur : ℚ
  tcg_price_usd : ℚ
  rotation_risk : RotationRisk
  trend_classification : TrendClassification
  bundle_tier : BundleTier
  deriving DecidableEq, Repr

/-- Stage-3 grade derivation of the scan:
`CardmarketGrade(condition_str.strip().upper()) if price.condition else NEAR_MINT`
(an empty condition string is falsy in Python, hence also NEAR_MINT). -/
def scanConditionGrade (condition : Option String) : Except String CardmarketGrade :=
  match condition with
  | none => .ok .NEAR_MINT
  | some s =>
      if s = "" then .ok .NEAR_MINT
      else
        match CardmarketGrade.fromCode (pyUpper (pyStrip s)) with
        | some g => .ok g
        | none => .error "invalid CardmarketGrade"

/-- Stage-5 raw velocity of the scan: `sales_30d / active_listings` when
the poketrace row and both fields are truthy and the listing count is
positive, else the fallback 1.0. -/
def rawVelocity (pokerow : Option PokeTraceRow) : ℚ :=
  match pokerow with
  | some row =>
      match row.sales_30d, row.active_listings with
      | some s, some l =>
          if s ≠ 0 ∧ l ≠ 0 ∧ 0 < l then (s : ℚ) / (l : ℚ) else 1
      | _, _ => 1
  | none => 1

/-- The per-candidate body of `scan_for_signals`: the ten stages in
contract order, returning the stages this candidate passed (= the
counters incremented for it) and its signal, if one is emitted. -/
def scanCandidate (c : Candidate) (forex_rate : ℚ) (today : ℤ) :
    List Stage × Option SignalData :=
  let canonical_id := match c.metadata with | some m => m.card_id | none => c.card_id
  if validate_variant c.card_id canonical_id ≠ "MATCH" then
    ([.initial], none)
  else
    let seller_rating := c.seller_rating.getD (985 / 10)
    let seller_sales := c.seller_sales.getD 100
    if ¬ check_seller_quality seller_rating seller_sales then
      ([.initial, .variant], none)
    else
      match scanConditionGrade c.condition with
      | .error _ => ([.initial, .variant, .seller], none)
      | .ok condition_grade =>
        match map_condition condition_grade with
        | .error _ => ([.initial, .variant, .seller], none)
        | .ok _mapping =>
          match calculate_net_profit c.price_eur c.price_usd forex_rate
              condition_grade.value CUSTOMS_REGIME_VALUE false
              (35 / 10) (75 / 10) (25 / 1000) with
          | .error _ => ([.initial, .variant, .seller, .condition], none)
          | .ok profit =>
            if profit.net_profit < DEFAULT_MIN_PROFIT_THRESHOLD then
              ([.initial, .variant, .seller, .condition], none)
            else
              match calculate_velocity_score (rawVelocity c.poketrace) none none with
              | .error _ =>
                  ([.initial, .variant, .seller, .condition, .profit], none)
              | .ok (vel_score, vel_tier) =>
                let tc := classify_trend vel_score c.price_trend none none
                if tc.2 then
                  ([.initial, .variant, .seller, .condition, .profit, .velocity], none)
                else
                  let decay :=
                    match c.metadata with
                    | some m =>
                        match m.set_release_date with
                        | some rel => calculate_maturity_decay rel today
                        | none => 1
                    | none => 1
                  let reg_mark := match c.metadata with
                    | some m => m.regulation_mark
                    | none => none
                  let legality := match c.metadata with
                    | some m => m.legality_standard
                    | none => none
                  let rotation := check_rotation_risk reg_mark legality today
                  if rotation.risk_level = .DANGER ∨ rotation.risk_level = .ROTATED then
                    ([.initial, .variant, .seller, .condition, .profit, .velocity,
                      .trend, .maturity], none)
                  else
                    match calculate_headache_score profit.net_profit 1 with
                    | .error _ =>
                        ([.initial, .variant, .seller, .condition, .profit, .velocity,
                          .trend, .maturity, .rotation], none)
                    | .ok (headache, h_tier) =>
                      let emit : BundleTier → Option SignalData := fun bt =>
                        some {
                          card_id := c.card_id
                          net_profit := profit.net_profit
                          margin_pct := profit.margin_pct
                          velocity_tier := vel_tier
                          velocity_score := vel_score
                          maturity_decay := decay
                          headache_tier := h_tier
                          headache_score := headache
                          condition := condition_grade.value
                          cm_price_eur := c.price_eur
                          tcg_price_usd := c.price_usd
                          rotation_risk := rotation
                          trend_classification := tc.1
                          bundle_tier := bt
                        }
                      if ENABLE_BUNDLE_LOGIC then
                        match calculate_seller_density_score 1 c.price_usd
                            profit.net_profit with
                        | .error _ =>
                            ([.initial, .variant, .seller, .condition, .profit,
                              .velocity, .trend, .maturity, .rotation, .headache], none)
                        | .ok bundle_result =>
                          if bundle_result.suppress then
                            ([.initial, .variant, .seller, .condition, .profit,
                              .velocity, .trend, .maturity, .rotation, .headache], none)
                          else
                            ([.initial, .variant, .seller, .condition, .profit,
                              .velocity, .trend, .maturity, .rotation, .headache,
                              .bundle], emit bundle_result.tier)
                      else
                        ([.initial, .variant, .seller, .condition, .profit,
                          .velocity, .trend, .maturity, .rotation, .headache,
                          .bundle], emit .singleCard)

/-! ## Priority rotation (`src/signals/rotation.py::score_candidates`) -/

/-- A subscriber candidate dict for signal routing. -/
structure SubscriberCandidate where
  user_id : String
  tier : String
  priority_score : ℚ
  categories : Option (List String)
  deriving DecidableEq, Repr

/-- The numeric value `UserTier[name].value` of the `UserTier` enum;
`none` models the `KeyError` for names that are not members.  The enum
has exactly the members PREMIUM (3), STANDARD (2) and FREE (1). -/
def userTierValue (name : String) : Option ℤ :=
  if name = "PREMIUM" then some 3
  else if name = "STANDARD" then some 2
  else if name = "FREE" then some 1
  else none

/-- Descending lexicographic comparison of (tier value, priority score,
category bonus) sort keys: `a` sorts no later than `b`. -/
def sortKeyGE (a b : ℤ × ℚ × ℤ) : Bool :=
  decide (b.1 < a.1 ∨ (a.1 = b.1 ∧ (b.2.1 < a.2.1 ∨ (a.2.1 = b.2.1 ∧ b.2.2 ≤ a.2.2))))

/-- Embedding of `score_candidates`: build each candidate's
(tier, priority, category-bonus) key — unknown tier labels fall back to
FREE via the `except KeyError` — then stable-sort descending. -/
def score_candidates (candidates : List SubscriberCandidate)
    (signal_category : Option String) : List SubscriberCandidate :=
  let scored := candidates.map (fun candidate =>
    let tier_name := pyLower candidate.tier
    let tier_value := (userTierValue (pyUpper tier_name)).getD 1
    let priority := candidate.priority_score
    let category_bonus : ℤ :=
      match signal_category, candidate.categories with
      | some s, some cats =>
          if s ≠ "" ∧ cats ≠ [] ∧ s ∈ cats then 1 else 0
      | _, _ => 0
    ((tier_value, priority, category_bonus), candidate))
  (scored.mergeSort (fun a b => sortKeyGE a.1 b.1)).map (·.2)

/-! ## Price store (`src/pipeline/justtcg.py::JustTCGClient.store_prices`)

One batch of fetched prices is written row by row — upsert into
`market_prices`, append into `price_history` — and committed once at the
end; the function returns the committed database state together with the
stored-row count. -/

/-- One fetched price record (`JustTCGPriceData`). -/
structure JustTCGPriceData where
  card_id : String
  price_usd : Option ℚ
  price_eur : Option ℚ
  condition : Option String
  deriving DecidableEq, Repr

/-- A `market_prices` row (the columns `store_prices` writes). -/
structure MarketPriceRow where
  card_id : String
  source : String
  price_usd : Option ℚ
  price_eur : Option ℚ
  condition : Option String
  last_updated : ℤ
  deriving DecidableEq, Repr

/-- A `price_history` row (append-only). -/
structure PriceHistoryRow where
  card_id : String
  source : String
  price_usd : Option ℚ
  price_eur : Option ℚ
  recorded_at : ℤ
  deriving DecidableEq, Repr

/-- The two tables `store_prices` touches. -/
structure Database where
  market_prices : List MarketPriceRow
  price_history : List PriceHistoryRow
  deriving DecidableEq, Repr

/-- `INSERT ... ON CONFLICT (card_id, source) DO UPDATE`: replace the row
with the conflicting composite key, else append. -/
def upsertMarketPrice (rows : List MarketPriceRow) (r : MarketPriceRow) :
    List MarketPriceRow :=
  if rows.any (fun x => x.card_id == r.card_id && x.source == r.source) then
    rows.map (fun x =>
      if x.card_id == r.card_id && x.source == r.source then r else x)
  else rows ++ [r]

/-- Embedding of `store_prices`: skip rows with no price at all; for every
other row upsert its `market_prices` row and append exactly one
`price_history` row stamped `now`; all writes commit together and the
stored-row count is returned. -/
def store_prices (prices : List JustTCGPriceData) (db : Database) (now : ℤ) :
    Database × ℕ :=
  match prices with
  | [] => (db, 0)
  | p :: rest =>
    if p.price_usd = none ∧ p.price_eur = none then
      store_prices rest db now
    else
      let db1 : Database := {
        market_prices := upsertMarketPrice db.market_prices
          ⟨p.card_id, "justtcg", p.price_usd, p.price_eur, p.condition, now⟩
        price_history := db.price_history ++
          [⟨p.card_id, "justtcg", p.price_usd, p.price_eur, now⟩] }
      let res := store_prices rest db1 now
      (res.1, res.2 + 1)

/-! ## Claim C3 — cascade availability -/

/-- C3: `should_cascade(expires_at, acted_on, cascade_count, now)` is true
iff the signal was not acted on, the cascade count is below 5, and
`now ≥ expires_at + 10 s`; in particular for an unacted signal with count
0 expiring at T0 = 0, now = 9 s gives no cascade, now = 10 s gives
cascade, now = 60 s with count 5 gives no cascade, and once `acted_on`
holds the cascade is blocked for every time and count. -/
theorem should_cascade_spec :
    (∀ (expires_at : ℤ) (acted_on : Bool) (cascade_count reference_time : ℤ),
      (should_cascade expires_at acted_on cascade_count reference_time none none).1 = true
        ↔ (acted_on = false ∧ cascade_count < 5 ∧
            expires_at + 10 ≤ reference_time))
    ∧ (should_cascade 0 false 0 9 none none).1 = false
    ∧ (should_cascade 0 false 0 10 none none).1 = true
    ∧ (should_cascade 0 false 5 60 none none).1 = false
    ∧ ∀ (expires_at cascade_count reference_time : ℤ),
        (should_cascade expires_at true cascade_count reference_time none none).1 = false := by
  have key : ∀ (expires_at : ℤ) (acted_on : Bool) (cascade_count reference_time : ℤ),
      (should_cascade expires_at acted_on cascade_count reference_time none none).1 = true
        ↔ (acted_on = false ∧ cascade_count < 5 ∧
            expires_at + 10 ≤ reference_time) := by
    intro e a c now
    cases a <;>
      simp only [should_cascade, compute_cascade_available_at, CASCADE_MAX_LIMIT,
        CASCADE_COOLDOWN_SECONDS, Option.getD_none] <;>
      split_ifs <;> simp_all <;> omega
  refine ⟨key, ?_, ?_, ?_, ?_⟩
  · cases hb : (should_cascade 0 false 0 9 none none).1
    · rfl
    · exfalso
      have := (key 0 false 0 9).1 hb
      omega
  · exact (key 0 false 0 10).2 ⟨rfl, by norm_num, by norm_num⟩
  · cases hb : (should_cascade 0 false 5 60 none none).1
    · rfl
    · exfalso
      have := (key 0 false 5 60).1 hb
      omega
  · intro e c now
    cases hb : (should_cascade e true c now none none).1
    · rfl
    · exfalso
      have := (key e true c now).1 hb
      simp at this

/-! ## Claim C7 — forex input validation -/

/-- C7 counterexample: `convert_eur_to_usd` accepts a non-positive spot
rate — rate 0 and rate −1 both return a value instead of failing, while
`convert_usd_to_eur` does fail on rate 0.  The claim that both
conversions fail on a non-positive rate is false. -/
theorem convert_eur_to_usd_accepts_nonpositive_rate :
    convert_eur_to_usd 100 0 (2/100) = .ok 0
    ∧ (∃ v, convert_eur_to_usd 100 (-1) (2/100) = .ok v)
    ∧ convert_usd_to_eur 100 0 (2/100) = .error "rate must be positive" := by
  refine ⟨?_, ⟨halfUp2 (100 * (-1 * (1 + 2/100))), ?_⟩, ?_⟩ <;>
    norm_num [convert_eur_to_usd, convert_usd_to_eur, halfUp2]

/-- C7 amended: both conversions fail exactly on a negative amount;
`convert_usd_to_eur` additionally fails exactly when the spot rate is
non-positive, but `convert_eur_to_usd` performs no rate check and returns
a value for every rate. -/
theorem forex_domain_validation (amount rate buffer : ℚ) :
    ((∃ v, convert_eur_to_usd amount rate buffer = .ok v) ↔ 0 ≤ amount)
    ∧ ((∃ v, convert_usd_to_eur amount rate buffer = .ok v) ↔ (0 ≤ amount ∧ 0 < rate)) := by
  constructor
  · constructor
    · rintro ⟨v, hv⟩
      by_contra h
      rw [not_le] at h
      simp [convert_eur_to_usd, h] at hv
    · intro h
      refine ⟨halfUp2 (amount * (rate * (1 + buffer))), ?_⟩
      simp [convert_eur_to_usd, not_lt.2 h]
  · constructor
    · rintro ⟨v, hv⟩
      refine ⟨?_, ?_⟩
      · by_contra h
        rw [not_le] at h
        simp [convert_usd_to_eur, h] at hv
      · by_contra h
        rw [not_lt] at h
        simp only [convert_usd_to_eur] at hv
        split_ifs at hv <;> simp_all
    · rintro ⟨h1, h2⟩
      refine ⟨halfUp2 (amount / (rate * (1 + buffer))), ?_⟩
      simp [convert_usd_to_eur, not_lt.2 h1, not_le.2 h2]

/-! ## Claim C6 — forex round trip -/

/-- C6 counterexample: at spot rate 0.01 (positive, so a valid input by
the claim's own hypotheses) the EUR→USD→EUR round trip of amount 1.00
returns 0.98, off by 0.02 — two ULPs at 2 decimal places, not one. -/
theorem forex_round_trip_two_ulp_off :
    convert_eur_to_usd 1 (1/100) (2/100) = .ok (1/100)
    ∧ convert_usd_to_eur (1/100) (1/100) (2/100) = .ok (98/100)
    ∧ ¬ |(98/100 : ℚ) - 1| ≤ 1/100 := by
  refine ⟨?_, ?_, by norm_num [abs_le]⟩ <;>
    norm_num [convert_eur_to_usd, convert_usd_to_eur, halfUp2]

/-- C6 amended: the conversions are symmetric in the buffered rate
`R = rate × (1+β)` (one multiplies, the other divides), and whenever the
buffered rate is at least 1 — in particular for every realistic EUR/USD
spot rate with the default 2% buffer — the EUR→USD→EUR round trip of any
non-negative amount returns the original amount to within one ULP at 2
decimal places (error at most 0.01).  For smaller buffered rates the
round-trip error can exceed one ULP. -/
theorem forex_round_trip_within_one_ulp (amount rate buffer : ℚ)
    (h_amt : 0 ≤ amount) (h_rate : 0 < rate)
    (h_buffered : 1 ≤ rate * (1 + buffer)) :
    ∃ usd eur, convert_eur_to_usd amount rate buffer = .ok usd
      ∧ convert_usd_to_eur usd rate buffer = .ok eur
      ∧ |eur - amount| ≤ 1/100 := by
  set R := rate * (1 + buffer) with hR
  have hRpos : 0 < R := lt_of_lt_of_le one_pos h_buffered
  have hprod : 0 ≤ amount * R := mul_nonneg h_amt hRpos.le
  have husd0 : 0 ≤ halfUp2 (amount * R) := halfUp2_nonneg hprod
  refine ⟨halfUp2 (amount * R), halfUp2 (halfUp2 (amount * R) / R), ?_, ?_, ?_⟩
  · simp [convert_eur_to_usd, not_lt.2 h_amt]
  · simp [convert_usd_to_eur, not_lt.2 husd0, not_le.2 h_rate]
  · have h1 : |halfUp2 (amount * R) - amount * R| ≤ 1/200 := abs_halfUp2_sub_le hprod
    have hdiv0 : 0 ≤ halfUp2 (amount * R) / R := div_nonneg husd0 hRpos.le
    have h2 : |halfUp2 (halfUp2 (amount * R) / R) - halfUp2 (amount * R) / R| ≤ 1/200 :=
      abs_halfUp2_sub_le hdiv0
    have key : |halfUp2 (amount * R) / R - amount| ≤ 1/200 := by
      have heq : halfUp2 (amount * R) / R - amount
          = (halfUp2 (amount * R) - amount * R) / R := by
        field_simp
        ring
      rw [heq, abs_div, abs_of_pos hRpos]
      exact le_trans (div_le_self (abs_nonneg _) h_buffered) h1
    calc |halfUp2 (halfUp2 (amount * R) / R) - amount|
        ≤ |halfUp2 (halfUp2 (amount * R) / R) - halfUp2 (amount * R) / R|
          + |halfUp2 (amount * R) / R - amount| := abs_sub_le _ _ _
      _ ≤ 1/200 + 1/200 := add_le_add h2 key
      _ = 1/100 := by norm_num

/-- Witness for C6's amended theorem at amount 100 €, spot rate 1.08,
buffer 2%. -/
theorem forex_round_trip_within_one_ulp_witness :
    ∃ usd eur, convert_eur_to_usd 100 (108/100) (2/100) = .ok usd
      ∧ convert_usd_to_eur usd (108/100) (2/100) = .ok eur
      ∧ |eur - 100| ≤ 1/100 :=
  forex_round_trip_within_one_ulp 100 (108/100) (2/100)
    (by norm_num) (by norm_num) (by norm_num)

/-! ## Claim C4 — rotation risk classification by days -/

/-- C4 counterexample: for mark "G" (rotation 2026-04-10) a reference
date exactly 180 days before the rotation yields WATCH, not the SAFE the
claim asserts for the 180-day boundary. -/
theorem rotation_exactly_180_days_is_watch :
    dateOrdinal 2026 4 10 - dateOrdinal 2025 10 12 = 180
    ∧ (check_rotation_risk (some "G") none (dateOrdinal 2025 10 12)).risk_level = .WATCH
    ∧ (check_rotation_risk (some "G") none (dateOrdinal 2025 10 12)).risk_level ≠ .SAFE := by
  refine ⟨by decide, ?_, ?_⟩ <;>
    simp [check_rotation_risk, ROTATION_CALENDAR, dateOrdinal, daysBeforeMonth, isLeapYear]

/-- Reduction of `check_rotation_risk` at mark "G" for a non-banned card:
the four-way day-difference classification of the source, with the
rotation date of the calendar entry. -/
theorem check_rotation_risk_g_eq (legality : Option String)
    (hleg : legality ≠ some "Banned") (ref : ℤ) :
    check_rotation_risk (some "G") legality ref =
      (if dateOrdinal 2026 4 10 - ref < 0 then
        ⟨true, .ROTATED, some 0, some (dateOrdinal 2026 4 10)⟩
       else if dateOrdinal 2026 4 10 - ref > 180 then
        ⟨false, .SAFE, some (max 0 ((dateOrdinal 2026 4 10 - ref) / 30)),
          some (dateOrdinal 2026 4 10)⟩
       else if dateOrdinal 2026 4 10 - ref > 90 then
        ⟨true, .WATCH, some (max 0 ((dateOrdinal 2026 4 10 - ref) / 30)),
          some (dateOrdinal 2026 4 10)⟩
       else
        ⟨true, .DANGER, some (max 0 ((dateOrdinal 2026 4 10 - ref) / 30)),
          some (dateOrdinal 2026 4 10)⟩) := by
  unfold check_rotation_risk
  rw [if_neg hleg]
  rfl

/-- C4 amended: for a card whose mark has a rotation date in the calendar
(and that is not banned), classification is strictly by days until
rotation — more than 180 days SAFE, 91 to 180 days WATCH (at-risk), 0 to
90 days DANGER (at-risk), a past date ROTATED; at the boundaries, exactly
90 days gives DANGER and exactly 180 days gives WATCH (not SAFE). -/
theorem rotation_risk_classification_by_days (reference_date : ℤ)
    (legality : Option String) (hleg : legality ≠ some "Banned") :
    (180 < dateOrdinal 2026 4 10 - reference_date →
      (check_rotation_risk (some "G") legality reference_date).risk_level = .SAFE
      ∧ (check_rotation_risk (some "G") legality reference_date).at_risk = false)
    ∧ (90 < dateOrdinal 2026 4 10 - reference_date
        ∧ dateOrdinal 2026 4 10 - reference_date ≤ 180 →
      (check_rotation_risk (some "G") legality reference_date).risk_level = .WATCH
      ∧ (check_rotation_risk (some "G") legality reference_date).at_risk = true)
    ∧ (0 ≤ dateOrdinal 2026 4 10 - reference_date
        ∧ dateOrdinal 2026 4 10 - reference_date ≤ 90 →
      (check_rotation_risk (some "G") legality reference_date).risk_level = .DANGER
      ∧ (check_rotation_risk (some "G") legality reference_date).at_risk = true)
    ∧ (dateOrdinal 2026 4 10 - reference_date < 0 →
      (check_rotation_risk (some "G") legality reference_date).risk_level = .ROTATED
      ∧ (check_rotation_risk (some "G") legality reference_date).at_risk = true) := by
  rw [check_rotation_risk_g_eq legality hleg reference_date]
  refine ⟨?_, ?_, ?_, ?_⟩ <;> intro h <;> split_ifs <;>
    first
      | exact ⟨rfl, rfl⟩
      | omega

/-- Witness for C4's amended theorem: reference 2026-02-22 is 47 days
before the rotation of mark "G", hence DANGER and at-risk (the spec's
rotation-danger scenario). -/
theorem rotation_risk_classification_by_days_witness :
    (check_rotation_risk (some "G") none (dateOrdinal 2026 2 22)).risk_level = .DANGER
    ∧ (check_rotation_risk (some "G") none (dateOrdinal 2026 2 22)).at_risk = true :=
  (rotation_risk_classification_by_days (dateOrdinal 2026 2 22) none
    (by simp)).2.2.1 (by decide)

/-! ## Claim C10 — marks absent from the calendar -/

/-- C10: every non-null regulation mark other than "G" and "H" is absent
from the hard-coded rotation calendar, and `check_rotation_risk`
classifies it ROTATED with `at_risk = true`, for every legality value and
every reference date — so such cards always fail the rotation stage. -/
theorem rotation_unlisted_mark_is_rotated (mark : String)
    (hG : mark ≠ "G") (hH : mark ≠ "H") (legality : Option String)
    (reference_date : ℤ) :
    ROTATION_CALENDAR mark = none
    ∧ (check_rotation_risk (some mark) legality reference_date).risk_level = .ROTATED
    ∧ (check_rotation_risk (some mark) legality reference_date).at_risk = true := by
  have hcal : ROTATION_CALENDAR mark = none := by
    simp [ROTATION_CALENDAR, hG, hH]
  refine ⟨hcal, ?_, ?_⟩ <;>
    by_cases hb : legality = some "Banned" <;>
    simp [check_rotation_risk, hcal, hb]

/-- Witness for C10 at mark "D" with Standard legality. -/
theorem rotation_unlisted_mark_is_rotated_witness :
    ROTATION_CALENDAR "D" = none
    ∧ (check_rotation_risk (some "D") (some "Standard") 0).risk_level = .ROTATED
    ∧ (check_rotation_risk (some "D") (some "Standard") 0).at_risk = true :=
  rotation_unlisted_mark_is_rotated "D" (by decide) (by decide) (some "Standard") 0

/-! ## Claim C1 — the tcg_fees component of the net-profit breakdown -/

/-- C1: the code contradicts the documented fee schedule (and its own
tests).  At cm = 100 €, tcg = $200, rate 1.00, condition NM, regime
de_minimis — a valid input — `calculate_net_profit` reports
`tcg_fees = 21.50` (= 200 × 0.1075 quantized, no cap and no fixed
component), while the platform fee schedule
`min(P × 0.1075, 75.00) + 0.30` evaluated by `calculate_platform_fees`
at the same adjusted sell price gives 21.80; consequently revenue is
178.50 rather than the schedule's 178.20. -/
theorem net_profit_fee_schedule_divergence :
    ∃ bd, calculate_net_profit 100 200 1 "NM" "de_minimis" false
        (35/10) (75/10) (25/1000) = .ok bd
      ∧ bd.tcg_fees = 215/10
      ∧ calculate_platform_fees 200 .tcgplayer = .ok (218/10)
      ∧ bd.tcg_fees ≠ 218/10
      ∧ bd.revenue = 1785/10 := by
  have hcond : _normalize_condition "NM" = .ok .NEAR_MINT := by decide
  have hreg : _normalize_customs_regime "de_minimis" = .ok .DE_MINIMIS := by decide
  refine ⟨⟨615/10, 1785/10, 102, 215/10, 0, 15, 0, 3445/100⟩, ?_, rfl, ?_, ?_, rfl⟩
  · norm_num [calculate_net_profit, hcond, hreg, map_condition,
      convert_eur_to_usd, _calculate_customs, halfUp2, DEFAULT_FOREX_BUFFER,
      TCGPLAYER_FEE_RATE, US_DE_MINIMIS_USD, US_CUSTOMS_STANDARD_RATE,
      SHIPPING_COST_USD]
  · norm_num [calculate_platform_fees, halfUp2, TCGPLAYER_FEE_RATE,
      TCGPLAYER_FEE_CAP, TCGPLAYER_FIXED_FEE]
  · norm_num

/-! ## Claim C8 — subscriber priority ordering -/

/-- C8: the code contradicts its own tests (`TestSubscriptionTierRouting`
in `tests/test_rotation_signals.py`) and the spec.  The `UserTier` enum
behind `score_candidates` knows only premium (3), standard (2) and free
(1); the labels "shop", "pro" and "trader" raise `KeyError` and fall back
to free, so a "shop" subscriber with priority score 1 is ranked below a
"pro" subscriber with priority score 100 instead of above — the ordering
shop > pro > trader > free does not hold. -/
theorem score_candidates_ranks_unknown_tiers_as_free :
    userTierValue "SHOP" = none
    ∧ userTierValue "PRO" = none
    ∧ userTierValue "TRADER" = none
    ∧ userTierValue "PREMIUM" = some 3
    ∧ userTierValue "STANDARD" = some 2
    ∧ score_candidates
        [⟨"pro_user", "pro", 100, none⟩, ⟨"shop_user", "shop", 1, none⟩] none
      = [⟨"pro_user", "pro", 100, none⟩, ⟨"shop_user", "shop", 1, none⟩] := by
  have t1 : pyUpper (pyLower "pro") = "PRO" := by decide
  have t2 : pyUpper (pyLower "shop") = "SHOP" := by decide
  have e1 : ("PRO" : String) ≠ "PREMIUM" := by decide
  have e2 : ("PRO" : String) ≠ "STANDARD" := by decide
  have e3 : ("PRO" : String) ≠ "FREE" := by decide
  have e4 : ("SHOP" : String) ≠ "PREMIUM" := by decide
  have e5 : ("SHOP" : String) ≠ "STANDARD" := by decide
  have e6 : ("SHOP" : String) ≠ "FREE" := by decide
  refine ⟨by decide, by decide, by decide, by decide, by decide, ?_⟩
  norm_num [score_candidates, t1, t2, e1, e2, e3, e4, e5, e6, userTierValue,
    sortKeyGE, List.mergeSort, List.merge]

/-! ## Claim C2 — one history row per upsert -/

/-- C2: running `store_prices` on a batch commits, in one transaction,
exactly the original history plus one new `price_history` row per stored
(upserted) price — each new row carries source "justtcg" and
`recorded_at = now`, and for every card the number of new history rows
for `(card, justtcg)` equals the number of upserted batch entries for
that card; rows with no price at all are skipped and produce nothing. -/
theorem store_prices_history_invariant (prices : List JustTCGPriceData)
    (db : Database) (now : ℤ) :
    ∃ new_rows, (store_prices prices db now).1.price_history
        = db.price_history ++ new_rows
      ∧ (∀ h ∈ new_rows, h.source = "justtcg" ∧ h.recorded_at = now)
      ∧ (∀ c : String,
          (new_rows.filter (fun h => h.card_id == c)).length
            = (prices.filter (fun p =>
                (p.price_usd.isSome || p.price_eur.isSome) && p.card_id == c)).length)
      ∧ (store_prices prices db now).2
          = (prices.filter (fun p =>
              p.price_usd.isSome || p.price_eur.isSome)).length := by
  induction prices generalizing db with
  | nil =>
    exact ⟨[], by simp [store_prices], by simp, by simp, by simp [store_prices]⟩
  | cons p rest ih =>
    by_cases hp : p.price_usd = none ∧ p.price_eur = none
    · obtain ⟨new_rows, h1, h2, h3, h4⟩ := ih db
      have hsome : (p.price_usd.isSome || p.price_eur.isSome) = false := by
        rw [hp.1, hp.2]
        rfl
      refine ⟨new_rows, ?_, h2, ?_, ?_⟩
      · simpa [store_prices, hp] using h1
      · intro c
        rw [h3 c]
        simp [hsome]
      · rw [show (store_prices (p :: rest) db now).2
              = (store_prices rest db now).2 by simp [store_prices, hp]]
        rw [h4]
        simp [hsome]
    · set row : PriceHistoryRow := ⟨p.card_id, "justtcg", p.price_usd, p.price_eur, now⟩
        with hrow
      set db1 : Database := ⟨upsertMarketPrice db.market_prices
          ⟨p.card_id, "justtcg", p.price_usd, p.price_eur, p.condition, now⟩,
          db.price_history ++ [row]⟩ with hdb1
      obtain ⟨new_rows, h1, h2, h3, h4⟩ := ih db1
      have hsome : (p.price_usd.isSome || p.price_eur.isSome) = true := by
        rcases hu : p.price_usd with _ | v
        · rcases he : p.price_eur with _ | w
          · exact absurd ⟨hu, he⟩ hp
          · rfl
        · rfl
      have hstep1 : (store_prices (p :: rest) db now).1
          = (store_prices rest db1 now).1 := by
        simp [store_prices, hp, hdb1, hrow]
      have hstep2 : (store_prices (p :: rest) db now).2
          = (store_prices rest db1 now).2 + 1 := by
        simp [store_prices, hp, hdb1, hrow]
      refine ⟨row :: new_rows, ?_, ?_, ?_, ?_⟩
      · rw [hstep1, h1, hdb1]
        simp
      · intro h hh
        rcases hh with _ | hh
        · exact ⟨rfl, rfl⟩
        · exact h2 _ (by assumption)
      · intro c
        rw [show ((row :: new_rows).filter (fun h => h.card_id == c)).length
              = (if p.card_id == c then 1 else 0)
                + (new_rows.filter (fun h => h.card_id == c)).length by
            by_cases hc : p.card_id == c <;> simp [List.filter, hrow, hc] <;> omega]
        rw [h3 c]
        by_cases hc : p.card_id == c <;> simp [List.filter, hsome, hc] <;> omega
      · rw [hstep2, h4]
        simp [List.filter, hsome]

/-! ## Claims C5 and C9 — scan behavior on concrete candidate classes -/

/-- The spec's suppressed-bundle scenario row: a MarketPrice with
USD = 20.00, EUR = 15.00, condition NM, no seller or velocity data. -/
def bundleScenarioCandidate : Candidate :=
  ⟨"sv1-77", 20, 15, some "NM", none, none, none, none, 0⟩

/-- A candidate whose prices are zero, so its net profit is negative
(the $15 shipping) whatever the condition grade. -/
def zeroPriceCandidate : Candidate :=
  ⟨"sv1-0", 0, 0, some "NM", none, none, none, none, 0⟩

/-- A candidate with partially scraped seller data: no rating, but a
lifetime sales count of 50. -/
def partialSellerCandidate : Candidate :=
  ⟨"sv1-88", 100, 40, some "NM", none, some 50, none, none, 0⟩

/-- A candidate with no seller data and an unknown condition string, so
the scan stops at stage 3. -/
def unknownConditionCandidate : Candidate :=
  ⟨"sv1-9", 1, 1, some "XX", none, none, none, none, 0⟩

/-- C5 counterexample: on the spec's suppressed-bundle scenario (price
$20 < $25, SDS = 1, computed net profit −13.67 ≤ 0, rate 1.08) the scan
emits no signal, but the candidate is rejected at the net-profit stage:
the counters incremented are exactly initial/variant/seller/condition —
stage counters count passes, and no counter at all (in particular not
the bundle one) records the rejection. -/
theorem scan_suppressed_bundle_scenario_counters :
    (scanCandidate bundleScenarioCandidate EUR_USD_RATE 0).1
      = [.initial, .variant, .seller, .condition]
    ∧ (scanCandidate bundleScenarioCandidate EUR_USD_RATE 0).2 = none
    ∧ Stage.bundle ∉ (scanCandidate bundleScenarioCandidate EUR_USD_RATE 0).1 := by
  have hvar : validate_variant "sv1-77" "sv1-77" = "MATCH" := by decide
  have hcond : scanConditionGrade (some "NM") = .ok .NEAR_MINT := by decide
  have hnormcond : _normalize_condition "NM" = .ok .NEAR_MINT := by decide
  have hreg : _normalize_customs_regime "pre_july_2026" = .ok .PRE_JULY_2026 := by
    decide
  have hcalc : calculate_net_profit 15 20 EUR_USD_RATE "NM" CUSTOMS_REGIME_VALUE
      false (7/2) (15/2) (1/40)
      = .ok ⟨-1367/100, 1785/100, 1652/100, 215/100, 0, 15, 0, -7658/100⟩ := by
    norm_num [calculate_net_profit, hnormcond, hreg, map_condition,
      convert_eur_to_usd, _calculate_customs, halfUp2, DEFAULT_FOREX_BUFFER,
      TCGPLAYER_FEE_RATE, US_DE_MINIMIS_USD, US_CUSTOMS_STANDARD_RATE,
      SHIPPING_COST_USD, EUR_USD_RATE, CUSTOMS_REGIME_VALUE]
  refine ⟨?_, ?_, ?_⟩ <;>
    norm_num [scanCandidate, bundleScenarioCandidate, hvar, hcond,
      check_seller_quality, MIN_SELLER_RATING, MIN_SELLER_SALES,
      CardmarketGrade.value, hcalc, map_condition,
      DEFAULT_MIN_PROFIT_THRESHOLD] <;>
    decide

/-- C5 amended: whenever the net profit the scan computes for a candidate
is ≤ 0 (for whatever condition grade the scan derives), the scan emits no
signal for it — but because 0 is below the $5.00 scan threshold the
candidate is rejected at the net-profit stage (or earlier), bundle logic
never runs for it, and the bundle stage counter is not incremented: the
scan keeps per-stage pass counters and counts no rejection anywhere. -/
theorem scan_nonpositive_profit_no_signal (c : Candidate) (rate : ℚ) (today : ℤ)
    (h : ∀ (g : CardmarketGrade) (bd : ProfitBreakdown),
      calculate_net_profit c.price_eur c.price_usd rate g.value
          CUSTOMS_REGIME_VALUE false (35/10) (75/10) (25/1000) = .ok bd
        → bd.net_profit ≤ 0) :
    (scanCandidate c rate today).2 = none
    ∧ Stage.bundle ∉ (scanCandidate c rate today).1 := by
  unfold scanCandidate
  dsimp only []
  repeat' split
  all_goals try exact ⟨rfl, by decide⟩
  all_goals exact absurd (lt_of_le_of_lt (h _ _ (by assumption))
    (show (0:ℚ) < DEFAULT_MIN_PROFIT_THRESHOLD by
      norm_num [DEFAULT_MIN_PROFIT_THRESHOLD])) (by assumption)

/-- Witness for C5's amended theorem on the zero-price candidate, whose
net profit is −15.00 for every non-suppressed condition grade. -/
theorem scan_nonpositive_profit_no_signal_witness :
    (scanCandidate zeroPriceCandidate EUR_USD_RATE 0).2 = none
    ∧ Stage.bundle ∉ (scanCandidate zeroPriceCandidate EUR_USD_RATE 0).1 :=
  scan_nonpositive_profit_no_signal zeroPriceCandidate EUR_USD_RATE 0 (by
    intro g bd hbd
    have hreg : _normalize_customs_regime "pre_july_2026" = .ok .PRE_JULY_2026 := by
      decide
    have c1 : _normalize_condition "MT" = .ok .MINT := by decide
    have c2 : _normalize_condition "NM" = .ok .NEAR_MINT := by decide
    have c3 : _normalize_condition "EXC" = .ok .EXCELLENT := by decide
    have c4 : _normalize_condition "GD" = .ok .GOOD := by decide
    have c5 : _normalize_condition "LP" = .ok .LIGHT_PLAYED := by decide
    have c6 : _normalize_condition "PL" = .ok .PLAYED := by decide
    have c7 : _normalize_condition "PO" = .ok .POOR := by decide
    cases g <;>
      norm_num [zeroPriceCandidate, calculate_net_profit, CardmarketGrade.value,
        c1, c2, c3, c4, c5, c6, c7, hreg, map_condition, convert_eur_to_usd,
        _calculate_customs, halfUp2, DEFAULT_FOREX_BUFFER, TCGPLAYER_FEE_RATE,
        US_DE_MINIMIS_USD, US_CUSTOMS_STANDARD_RATE, SHIPPING_COST_USD,
        EUR_USD_RATE, CUSTOMS_REGIME_VALUE] at hbd <;>
      first
        | (rw [← hbd]; norm_num)
        | exact absurd hbd (by simp))

/-- C9 amended: the scan substitutes the defaults per missing field
(rating → 98.5 when `seller_rating` is null, sales → 100 when
`seller_sales` is null); when both fields are null the defaults satisfy
the seller-quality floor (98.5 ≥ 97.0 and 100 ≥ 100), so a candidate
with no seller data at all that reaches stage 2 is never rejected there.
A row with only one field null can still be rejected when the present
field is below the floor. -/
theorem scan_missing_seller_data_passes_floor (c : Candidate) (rate : ℚ)
    (today : ℤ) (h1 : c.seller_rating = none) (h2 : c.seller_sales = none) :
    check_seller_quality (985/10) 100 = true
    ∧ (Stage.variant ∈ (scanCandidate c rate today).1
        → Stage.seller ∈ (scanCandidate c rate today).1) := by
  have hq : check_seller_quality (985/10) 100 = true := by
    norm_num [check_seller_quality, MIN_SELLER_RATING, MIN_SELLER_SALES]
  refine ⟨hq, ?_⟩
  unfold scanCandidate
  rw [h1, h2]
  dsimp only []
  simp only [Option.getD_none, hq]
  repeat' split
  all_goals try exact fun _ => absurd trivial (by assumption)
  all_goals try decide
  all_goals intro hv
  all_goals simp

/-- Witness for C9's amended theorem: a candidate with no seller data
that passes stage 1 also passes stage 2. -/
theorem scan_missing_seller_data_passes_floor_witness :
    Stage.seller ∈ (scanCandidate unknownConditionCandidate EUR_USD_RATE 0).1 :=
  (scan_missing_seller_data_passes_floor unknownConditionCandidate EUR_USD_RATE 0
    rfl rfl).2 (by
      have hvar : validate_variant "sv1-9" "sv1-9" = "MATCH" := by decide
      have hcond : scanConditionGrade (some "XX")
          = .error "invalid CardmarketGrade" := by decide
      norm_num [scanCandidate, unknownConditionCandidate, hvar, hcond,
        check_seller_quality, MIN_SELLER_RATING, MIN_SELLER_SALES])

/-- C9 counterexample: a MarketPrice row lacking scraped seller data in
the rating field only (`seller_rating` null, `seller_sales` = 50) is
rejected at stage 2: only the rating is defaulted, the sales count 50
stays below the floor of 100, and the scan stops after the variant
counter. -/
theorem scan_partial_seller_data_rejected :
    (scanCandidate partialSellerCandidate EUR_USD_RATE 0).1
      = [.initial, .variant]
    ∧ (scanCandidate partialSellerCandidate EUR_USD_RATE 0).2 = none
    ∧ Stage.seller ∉ (scanCandidate partialSellerCandidate EUR_USD_RATE 0).1 := by
  have hvar : validate_variant "sv1-88" "sv1-88" = "MATCH" := by decide
  refine ⟨?_, ?_, ?_⟩ <;>
    norm_num [scanCandidate, partialSellerCandidate, hvar, check_seller_quality,
      MIN_SELLER_RATING, MIN_SELLER_SALES] <;> decide

end TCGRadar
